import Mathlib

/-!
Shallow embedding of the ESP32_AutoOTA library (src/src/ESP32_AutoOTA.cpp and
src/include/ESP32_AutoOTA.h): the update-decision and staged-rollout state
machine.  Machine integers are modelled as Nat with explicit reduction modulo
2^32 (unsigned long / uint32_t) or 2^8 (uint8_t) exactly where the C code can
overflow; C strings are modelled as Lean String values (no interior NUL
bytes), with the fixed-capacity strncpy-and-terminate idiom modelled as
truncation to capacity-1 characters.  External collaborators (HTTP transport,
flash writer, WiFi, FreeRTOS task creation) enter as explicit inputs, as the
spec designates them external.
-/

namespace ESP32_AutoOTA

/-- Modulus for 32-bit unsigned arithmetic (`uint32_t` / `unsigned long`). -/
def U32 : Nat := 2 ^ 32

/-- Whitespace predicate of C `isspace`, used by Arduino `String::trim`:
space, tab, newline, vertical tab, form feed, carriage return. -/
def isSpaceChar (c : Char) : Bool :=
  c = ' ' || c = '\t' || c = '\n' || c = Char.ofNat 11 || c = Char.ofNat 12 || c = '\r'

/-- Model of `String::trim()` as used in `checkForUpdate` (ESP32_AutoOTA.cpp:245): removes
leading and trailing whitespace characters. -/
def trimString (s : String) : String :=
  String.mk (((s.toList.dropWhile isSpaceChar).reverse.dropWhile isSpaceChar).reverse)

/-- The `strncpy(dst, src, cap - 1); dst[cap - 1] = 0;` idiom used by
`setFirmwareURL`, `setVersionURL`, `setCurrentVersion` and `setError`
(ESP32_AutoOTA.cpp:43-56, 397-399): the stored NUL-terminated string keeps at
most `cap - 1` characters of the source. -/
def strncpyBounded (cap : Nat) (src : String) : String :=
  String.mk (src.toList.take (cap - 1))

/-- Arduino `constrain(amt, low, high)` macro on unsigned values. -/
def constrain (x lo hi : Nat) : Nat :=
  if x < lo then lo else if x > hi then hi else x

/-- Configuration fields of the `ESP32_AutoOTA` class
(ESP32_AutoOTA.h:186-197).  `rolloutPercentage`, `maxRetries` are `uint8_t`;
the delays and interval are `unsigned long` (32-bit on ESP32). -/
structure Config where
  firmwareURL : String
  versionURL : String
  currentVersion : String
  checkInterval : Nat
  minRandomDelay : Nat
  maxRandomDelay : Nat
  staggeredRollout : Bool
  rolloutPercentage : Nat
  statusLED : Int
  maxRetries : Nat
  debugMode : Bool
deriving Repr, DecidableEq

/-- Constructor defaults (ESP32_AutoOTA.cpp:11-34 with the header's
DEFAULT_* values, ESP32_AutoOTA.h:30-34). -/
def initialConfig : Config :=
  { firmwareURL := ""
  , versionURL := ""
  , currentVersion := "0.0.0"
  , checkInterval := 300000
  , minRandomDelay := 60000
  , maxRandomDelay := 180000
  , staggeredRollout := false
  , rolloutPercentage := 50
  , statusLED := -1
  , maxRetries := 3
  , debugMode := true }

/-- Model of `setFirmwareURL` (ESP32_AutoOTA.cpp:43-46); `_firmwareURL` is a 256-byte
buffer. -/
def setFirmwareURL (cfg : Config) (url : String) : Config :=
  { cfg with firmwareURL := strncpyBounded 256 url }

/-- Model of `setVersionURL` (ESP32_AutoOTA.cpp:48-51); `_versionURL` is a 256-byte
buffer. -/
def setVersionURL (cfg : Config) (url : String) : Config :=
  { cfg with versionURL := strncpyBounded 256 url }

/-- Model of `setCurrentVersion` (ESP32_AutoOTA.cpp:53-56); `_currentVersion` is a
32-byte buffer. -/
def setCurrentVersion (cfg : Config) (version : String) : Config :=
  { cfg with currentVersion := strncpyBounded 32 version }

/-- Model of `setCheckInterval` (ESP32_AutoOTA.cpp:58-60). -/
def setCheckInterval (cfg : Config) (intervalMs : Nat) : Config :=
  { cfg with checkInterval := intervalMs % U32 }

/-- Model of `setRandomDelay` (ESP32_AutoOTA.cpp:62-65): stores both arguments
unchanged; there is no clamping and no min-vs-max check in the source. -/
def setRandomDelay (cfg : Config) (minMs maxMs : Nat) : Config :=
  { cfg with minRandomDelay := minMs % U32, maxRandomDelay := maxMs % U32 }

/-- Model of `setStaggeredRollout` (ESP32_AutoOTA.cpp:67-70): the `uint8_t` percentage
argument (hence the mod 256 at the call boundary) is clamped with
`constrain(percentage, 0, 100)`. -/
def setStaggeredRollout (cfg : Config) (enable : Bool) (percentage : Nat) : Config :=
  { cfg with staggeredRollout := enable
           , rolloutPercentage := constrain (percentage % 256) 0 100 }

/-- Model of `setMaxRetries` (ESP32_AutoOTA.cpp:80-82); the argument is `uint8_t`. -/
def setMaxRetries (cfg : Config) (retries : Nat) : Config :=
  { cfg with maxRetries := retries % 256 }

/-- Model of `getCurrentVersion` (ESP32_AutoOTA.cpp:167-169). -/
def getCurrentVersion (cfg : Config) : String :=
  cfg.currentVersion

/-- Model of `getDeviceHash` (ESP32_AutoOTA.cpp:384-395): folds
`hash = hash * 31 + mac[i]` over the fingerprint bytes starting from 0, every
step in `uint32_t` arithmetic.  The device MAC is 6 bytes; the fold is
defined over any byte list. -/
def getDeviceHash (mac : List Nat) : Nat :=
  mac.foldl (fun h b => (h * 31 + b) % U32) 0

/-- Model of `shouldUpdateNow` (ESP32_AutoOTA.cpp:376-382): `devicePercentile` is the
`uint8_t` holding `deviceHash % 100`; the device updates now iff it is
strictly below the rollout percentage. -/
def shouldUpdateNow (deviceHash : Nat) (rolloutPercentage : Nat) : Bool :=
  let devicePercentile := deviceHash % 100 % 256
  devicePercentile < rolloutPercentage

/-- Runtime state of the agent (ESP32_AutoOTA.h:199-205), as observed by the
background task and by the public getters. -/
structure AgentState where
  isRunning : Bool
  lastCheckTime : Nat
  retryCount : Nat
  lastError : String
  forceCheckFlag : Bool
deriving Repr, DecidableEq

/-- Runtime state after the constructor (ESP32_AutoOTA.cpp:23-28). -/
def initialState : AgentState :=
  { isRunning := false
  , lastCheckTime := 0
  , retryCount := 0
  , lastError := ""
  , forceCheckFlag := false }

/-- Model of `setError` (ESP32_AutoOTA.cpp:397-406) as it acts on the stored state:
`_lastError` is a 128-byte buffer, so at most 127 characters are kept.  The
error callback, when registered, is invoked once per `setError` call with the
untruncated message; those calls are tracked by the result records below. -/
def setErrorState (st : AgentState) (error : String) : AgentState :=
  { st with lastError := strncpyBounded 128 error }

/-- Model of `getLastError` (ESP32_AutoOTA.cpp:175-177). -/
def getLastError (st : AgentState) : String :=
  st.lastError

/-- Model of `forceCheck` (ESP32_AutoOTA.cpp:162-165): sets `_forceCheckFlag` and does
nothing else (the log call touches no state). -/
def forceCheck (st : AgentState) : AgentState :=
  { st with forceCheckFlag := true }

/-- Environment inputs consumed by one run of `performUpdate`
(ESP32_AutoOTA.cpp:274-370): the HTTP status of the firmware GET, the declared
content length (`http.getSize()`, an `int` that may be -1), the flash
writer's `Update.begin` / `Update.end` / `Update.isFinished` outcomes and its
error code.  The byte-streaming loop (lines 303-334) only moves bytes and
emits progress/LED signals; its observable outcome enters through
`endOk`/`isFinished`. -/
structure UpdateInput where
  httpCode : Int
  contentLength : Int
  canBegin : Bool
  endOk : Bool
  isFinished : Bool
  updateError : Nat
deriving Repr, DecidableEq

/-- Observable outcome of one `performUpdate` run: the returned bool, the
messages passed to `setError` (in order), whether `_onUpdateComplete` fired,
and whether `ESP.restart()` was reached. -/
structure UpdateResult where
  success : Bool
  setErrorCalls : List String
  completeCallback : Bool
  restarted : Bool
deriving Repr, DecidableEq

/-- Model of `performUpdate` (ESP32_AutoOTA.cpp:274-370).  Each failure branch calls
`setError` with its message exactly once and returns false without
restarting; the success branch fires the complete callback and restarts. -/
def performUpdate (inp : UpdateInput) : UpdateResult :=
  if inp.httpCode = 200 then
    if inp.contentLength > 0 then
      if inp.canBegin then
        if inp.endOk then
          if inp.isFinished then
            { success := true, setErrorCalls := [], completeCallback := true, restarted := true }
          else
            { success := false, setErrorCalls := ["Update not finished"]
            , completeCallback := false, restarted := false }
        else
          { success := false
          , setErrorCalls := ["Update failed: error " ++ toString inp.updateError]
          , completeCallback := false, restarted := false }
      else
        { success := false, setErrorCalls := ["Not enough space for OTA"]
        , completeCallback := false, restarted := false }
    else
      { success := false, setErrorCalls := ["Content length is zero"]
      , completeCallback := false, restarted := false }
  else
    { success := false
    , setErrorCalls := ["Download failed: HTTP " ++ toString inp.httpCode]
    , completeCallback := false, restarted := false }

/-- Environment inputs consumed by one run of `checkForUpdate`
(ESP32_AutoOTA.cpp:226-272): the HTTP status of the version GET and the
response body, plus the device hash (from `getDeviceHash`) and the inputs the
nested `performUpdate` would consume. -/
structure CheckInput where
  httpCode : Int
  remoteBody : String
  deviceHash : Nat
  upd : UpdateInput
deriving Repr, DecidableEq

/-- The spec's check outcome taxonomy {UpToDate, Deferred, Updated, Failed},
read off the branch of `checkForUpdate` that produced the result. -/
inductive CheckOutcome where
  | upToDate
  | deferred
  | updated
  | failed
deriving Repr, DecidableEq

/-- Observable outcome of one `checkForUpdate` run: the returned bool, the
spec-level outcome of the branch taken, whether `performUpdate` was invoked,
the `setError` messages, and whether a restart was reached. -/
structure CheckResult where
  success : Bool
  outcome : CheckOutcome
  invokedExecutor : Bool
  setErrorCalls : List String
  restarted : Bool
deriving Repr, DecidableEq

/-- Model of `checkForUpdate` (ESP32_AutoOTA.cpp:226-272): on HTTP 200 the body is
trimmed and compared to `_currentVersion` for exact equality (up to date);
otherwise, with staggered rollout enabled and `shouldUpdateNow()` false the
update is deferred; otherwise `performUpdate` runs and its outcome is
returned.  A non-200 status sets "Version check failed" and returns false. -/
def checkForUpdate (cfg : Config) (inp : CheckInput) : CheckResult :=
  if inp.httpCode = 200 then
    let remoteVersion := trimString inp.remoteBody
    if remoteVersion = cfg.currentVersion then
      { success := true, outcome := .upToDate, invokedExecutor := false
      , setErrorCalls := [], restarted := false }
    else if cfg.staggeredRollout && !shouldUpdateNow inp.deviceHash cfg.rolloutPercentage then
      { success := true, outcome := .deferred, invokedExecutor := false
      , setErrorCalls := [], restarted := false }
    else
      let r := performUpdate inp.upd
      { success := r.success
      , outcome := if r.success then .updated else .failed
      , invokedExecutor := true
      , setErrorCalls := r.setErrorCalls
      , restarted := r.restarted }
  else
    { success := false, outcome := .failed, invokedExecutor := false
    , setErrorCalls := ["Version check failed"], restarted := false }

/-- The retry bookkeeping of one polling iteration (ESP32_AutoOTA.cpp:206-214):
reset to 0 when `checkForUpdate` returned true (UpToDate / Deferred /
Updated), else a `uint8_t` increment followed by a reset to 0 when the
counter has reached `_maxRetries`; the loop then continues either way. -/
def retryStep (maxRetries retryCount : Nat) (checkSucceeded : Bool) : Nat :=
  if checkSucceeded then 0
  else
    let c := (retryCount + 1) % 256
    if c ≥ maxRetries then 0 else c

/-- Environment inputs of one iteration of the polling loop in `otaTask`
(ESP32_AutoOTA.cpp:194-223): WiFi connectivity, the current `millis()` value,
and what the transport/flash environment would answer if a check runs. -/
structure StepInput where
  wifiConnected : Bool
  now : Nat
  check : CheckInput
deriving Repr, DecidableEq

/-- One iteration of the `while (true)` polling loop in `otaTask`
(ESP32_AutoOTA.cpp:194-223).  With WiFi down the iteration only waits.
Otherwise, when the force flag is set or `millis() - _lastCheckTime`
(computed in `unsigned long` arithmetic) has reached `_checkInterval`, the
force flag is cleared first, then `checkForUpdate` runs, then the retry
counter and `_lastCheckTime` are updated.  Returns the new state and the
check's result when one ran. -/
def otaLoopBody (cfg : Config) (st : AgentState) (inp : StepInput) :
    AgentState × Option CheckResult :=
  if !inp.wifiConnected then
    (st, none)
  else if st.forceCheckFlag || ((inp.now + U32 - st.lastCheckTime) % U32 ≥ cfg.checkInterval) then
    let stCleared := { st with forceCheckFlag := false }
    let r := checkForUpdate cfg inp.check
    let stErr := (r.setErrorCalls.foldl setErrorState stCleared)
    ({ stErr with retryCount := retryStep cfg.maxRetries stErr.retryCount r.success
                , lastCheckTime := inp.now % U32 }, some r)
  else
    (st, none)

/-- Environment inputs of one `begin()` call (ESP32_AutoOTA.cpp:112-147):
WiFi connectivity and whether `xTaskCreate` succeeds. -/
structure BeginInput where
  wifiConnected : Bool
  taskCreateOk : Bool
deriving Repr, DecidableEq

/-- Model of `begin` (ESP32_AutoOTA.cpp:112-147): fails when already running, when
either URL is empty, when WiFi is down, or when task creation fails; on
success sets `_isRunning` and returns true. -/
def begin (cfg : Config) (st : AgentState) (inp : BeginInput) : Bool × AgentState :=
  if st.isRunning then
    (false, st)
  else if cfg.firmwareURL.length = 0 || cfg.versionURL.length = 0 then
    (false, setErrorState st "Firmware or version URL not set")
  else if !inp.wifiConnected then
    (false, setErrorState st "WiFi not connected")
  else if inp.taskCreateOk then
    (true, { st with isRunning := true })
  else
    (false, setErrorState st "Failed to create task")

/-! Shared example fixtures used by witness and counterexample theorems. -/

/-- A configured agent: both URLs set and local version "1.0.0". -/
def cfgEx : Config :=
  setCurrentVersion
    (setVersionURL (setFirmwareURL initialConfig "http://example.com/firmware.bin")
      "http://example.com/version.txt")
    "1.0.0"

/-- The configured agent with staggered rollout enabled at 10%. -/
def cfgRollEx : Config :=
  setStaggeredRollout cfgEx true 10

/-- Flash/transport environment in which every step succeeds. -/
def updOkEx : UpdateInput :=
  { httpCode := 200, contentLength := 1000, canBegin := true
  , endOk := true, isFinished := true, updateError := 0 }

/-- Flash/transport environment in which the firmware download gets HTTP 500. -/
def updFailEx : UpdateInput :=
  { httpCode := 500, contentLength := -1, canBegin := false
  , endOk := false, isFinished := false, updateError := 0 }

/-! Helper lemmas. -/

/-- Folding the 32-bit-truncating hash step is the plain fold reduced mod
2^32. -/
theorem foldl_hash_mod (l : List Nat) (a : Nat) :
    l.foldl (fun h b => (h * 31 + b) % U32) (a % U32)
      = (l.foldl (fun h b => h * 31 + b) a) % U32 := by
  induction l generalizing a with
  | nil => rfl
  | cons b t ih =>
    simp only [List.foldl_cons]
    have hstep : (a % U32 * 31 + b) % U32 = (a * 31 + b) % U32 := by
      simp only [U32]
      omega
    rw [hstep]
    exact ih (a * 31 + b)

/-- A failed check moves the retry counter to its increment when that stays
below the ceiling, and to 0 otherwise. -/
theorem retryStep_false_eq (maxRetries c : Nat) (hc : c < 255) :
    retryStep maxRetries c false = if c + 1 < maxRetries then c + 1 else 0 := by
  unfold retryStep
  have : (c + 1) % 256 = c + 1 := Nat.mod_eq_of_lt (by omega)
  simp only [Bool.false_eq_true, if_false, this]
  split <;> split <;> omega

/-- Folding `setErrorState` over any message list touches only `lastError`. -/
theorem foldl_setErrorState_fields (msgs : List String) (st : AgentState) :
    (msgs.foldl setErrorState st).isRunning = st.isRunning
    ∧ (msgs.foldl setErrorState st).lastCheckTime = st.lastCheckTime
    ∧ (msgs.foldl setErrorState st).retryCount = st.retryCount
    ∧ (msgs.foldl setErrorState st).forceCheckFlag = st.forceCheckFlag := by
  induction msgs generalizing st with
  | nil => exact ⟨rfl, rfl, rfl, rfl⟩
  | cons m t ih =>
    simpa only [List.foldl_cons, setErrorState] using ih { st with lastError := strncpyBounded 128 m }

/-- A nonempty string prepended with `++` keeps the result nonempty. -/
theorem append_ne_empty_left (a b : String) (ha : a.length ≠ 0) : a ++ b ≠ "" := by
  intro h
  have hlen := congrArg String.length h
  rw [String.length_append] at hlen
  have hz : ("" : String).length = 0 := rfl
  rw [hz] at hlen
  omega

/-! Claim theorems. -/

/-- C1: for every 32-bit hash `h` and percentage `p ∈ [0,100]`, the rollout
eligibility decision of `shouldUpdateNow` equals `(h % 100) < p`; with `p = 0`
no device is eligible and with `p = 100` every device is; being a Lean
function of `(h, p)`, the decision is pure and deterministic. -/
theorem rollout_eligibility_correct (h p : Nat) (hh : h < U32) (hp : p ≤ 100) :
    shouldUpdateNow h p = decide (h % 100 < p)
    ∧ (p = 0 → shouldUpdateNow h p = false)
    ∧ (p = 100 → shouldUpdateNow h p = true) := by
  have h100 : h % 100 < 100 := Nat.mod_lt _ (by norm_num)
  have h256 : h % 100 % 256 = h % 100 := Nat.mod_eq_of_lt (by omega)
  refine ⟨?_, ?_, ?_⟩
  · simp [shouldUpdateNow, h256]
  · intro hp0
    simp [shouldUpdateNow, hp0]
  · intro hp100
    simp only [shouldUpdateNow, h256, hp100]
    simpa using h100

/-- Witness for C1 at `h = 123456`, `p = 50`. -/
theorem rollout_eligibility_correct_witness :
    123456 < U32 ∧ 50 ≤ 100
    ∧ (shouldUpdateNow 123456 50 = decide (123456 % 100 < 50)
       ∧ (50 = 0 → shouldUpdateNow 123456 50 = false)
       ∧ (50 = 100 → shouldUpdateNow 123456 50 = true)) :=
  ⟨by norm_num [U32], by norm_num,
    rollout_eligibility_correct 123456 50 (by norm_num [U32]) (by norm_num)⟩

/-- C6: for every fingerprint byte sequence, the device hash is the unsigned
32-bit value of folding `h = h * 31 + byte` from 0 over the bytes in order
(the step-wise truncating fold equals the mathematical fold reduced mod
2^32, and the result is always below 2^32); as a Lean function it is
deterministic across repeated computation on the same bytes. -/
theorem device_hash_fold_mod (mac : List Nat) :
    getDeviceHash mac = (mac.foldl (fun h b => h * 31 + b) 0) % U32
    ∧ getDeviceHash mac < U32 := by
  have hfold := foldl_hash_mod mac 0
  rw [Nat.zero_mod] at hfold
  have heq : getDeviceHash mac = (mac.foldl (fun h b => h * 31 + b) 0) % U32 := hfold
  exact ⟨heq, heq ▸ Nat.mod_lt _ (by norm_num [U32])⟩

/-- C2: retry-counter discipline of the polling loop: reset to 0 on a
successful check (and `checkForUpdate` returns success exactly on the
UpToDate/Deferred/Updated branches, never on the Failed branch), increment by
1 on a failed check while the incremented value stays below `maxRetries`,
reset to 0 once the counter reaches the ceiling; three consecutive failures
with `maxRetries = 3` leave the counter at 0. -/
theorem retry_counter_discipline (maxRetries c : Nat) (hc : c < 255) :
    retryStep maxRetries c true = 0
    ∧ (c + 1 < maxRetries → retryStep maxRetries c false = c + 1)
    ∧ (maxRetries ≤ c + 1 → retryStep maxRetries c false = 0)
    ∧ retryStep 3 (retryStep 3 (retryStep 3 0 false) false) false = 0
    ∧ (∀ cfg inp, (checkForUpdate cfg inp).success
        = ((checkForUpdate cfg inp).outcome ≠ CheckOutcome.failed)) := by
  refine ⟨rfl, ?_, ?_, by decide, ?_⟩
  · intro hlt
    rw [retryStep_false_eq maxRetries c hc, if_pos hlt]
  · intro hge
    rw [retryStep_false_eq maxRetries c hc, if_neg (by omega)]
  · intro cfg inp
    unfold checkForUpdate
    by_cases h1 : inp.httpCode = 200
    · simp only [h1, if_true]
      by_cases h2 : trimString inp.remoteBody = cfg.currentVersion
      · simp [h2]
      · by_cases h3 : (cfg.staggeredRollout && !shouldUpdateNow inp.deviceHash cfg.rolloutPercentage) = true
        · simp [h2, h3]
        · cases hr : (performUpdate inp.upd).success <;> simp [h2, h3, hr]
    · simp [h1]

/-- Witness for C2 at `maxRetries = 3`, `c = 1`. -/
theorem retry_counter_discipline_witness :
    1 < 255
    ∧ (retryStep 3 1 true = 0
       ∧ (1 + 1 < 3 → retryStep 3 1 false = 1 + 1)
       ∧ (3 ≤ 1 + 1 → retryStep 3 1 false = 0)
       ∧ retryStep 3 (retryStep 3 (retryStep 3 0 false) false) false = 0
       ∧ (∀ cfg inp, (checkForUpdate cfg inp).success
           = ((checkForUpdate cfg inp).outcome ≠ CheckOutcome.failed))) :=
  ⟨by norm_num, retry_counter_discipline 3 1 (by norm_num)⟩

/-- C3: whenever the version GET returns 200 and the trimmed remote version
equals the configured local version, `checkForUpdate` takes the UpToDate
branch, returns success, and never invokes the update executor
`performUpdate`. -/
theorem check_up_to_date (cfg : Config) (inp : CheckInput)
    (hcode : inp.httpCode = 200)
    (hver : trimString inp.remoteBody = cfg.currentVersion) :
    (checkForUpdate cfg inp).outcome = CheckOutcome.upToDate
    ∧ (checkForUpdate cfg inp).success = true
    ∧ (checkForUpdate cfg inp).invokedExecutor = false := by
  unfold checkForUpdate
  simp [hcode, hver]

/-- Witness for C3: local "1.0.0", remote body with trailing newline. -/
theorem check_up_to_date_witness :
    ({ httpCode := 200, remoteBody := "1.0.0\n", deviceHash := 0, upd := updOkEx } : CheckInput).httpCode = 200
    ∧ trimString ({ httpCode := 200, remoteBody := "1.0.0\n", deviceHash := 0, upd := updOkEx } : CheckInput).remoteBody = cfgEx.currentVersion
    ∧ ((checkForUpdate cfgEx { httpCode := 200, remoteBody := "1.0.0\n", deviceHash := 0, upd := updOkEx }).outcome = CheckOutcome.upToDate
       ∧ (checkForUpdate cfgEx { httpCode := 200, remoteBody := "1.0.0\n", deviceHash := 0, upd := updOkEx }).success = true
       ∧ (checkForUpdate cfgEx { httpCode := 200, remoteBody := "1.0.0\n", deviceHash := 0, upd := updOkEx }).invokedExecutor = false) :=
  ⟨by decide, by decide,
    check_up_to_date cfgEx { httpCode := 200, remoteBody := "1.0.0\n", deviceHash := 0, upd := updOkEx }
      (by decide) (by decide)⟩

/-- C4: on a 200 response whose trimmed version differs from the local one,
with staggered rollout enabled and the device's bucket not below the rollout
percentage, `checkForUpdate` takes the Deferred branch, never invokes the
executor, and the retry step on its (successful) result resets the counter
to 0 — in particular it never increments it. -/
theorem check_deferred (cfg : Config) (inp : CheckInput)
    (hcode : inp.httpCode = 200)
    (hver : trimString inp.remoteBody ≠ cfg.currentVersion)
    (hroll : cfg.staggeredRollout = true)
    (hgate : shouldUpdateNow inp.deviceHash cfg.rolloutPercentage = false) :
    (checkForUpdate cfg inp).outcome = CheckOutcome.deferred
    ∧ (checkForUpdate cfg inp).success = true
    ∧ (checkForUpdate cfg inp).invokedExecutor = false
    ∧ (∀ c, retryStep cfg.maxRetries c (checkForUpdate cfg inp).success = 0
        ∧ retryStep cfg.maxRetries c (checkForUpdate cfg inp).success ≠ c + 1) := by
  have hres : checkForUpdate cfg inp
      = { success := true, outcome := CheckOutcome.deferred, invokedExecutor := false
        , setErrorCalls := [], restarted := false } := by
    unfold checkForUpdate
    simp [hcode, hver, hroll, hgate]
  refine ⟨by rw [hres], by rw [hres], by rw [hres], ?_⟩
  intro c
  rw [hres]
  exact ⟨rfl, by simp [retryStep]⟩

/-- Witness for C4: remote "1.0.1", rollout at 10%, device bucket 56. -/
theorem check_deferred_witness :
    ({ httpCode := 200, remoteBody := "1.0.1", deviceHash := 456, upd := updOkEx } : CheckInput).httpCode = 200
    ∧ trimString ({ httpCode := 200, remoteBody := "1.0.1", deviceHash := 456, upd := updOkEx } : CheckInput).remoteBody ≠ cfgRollEx.currentVersion
    ∧ cfgRollEx.staggeredRollout = true
    ∧ shouldUpdateNow 456 cfgRollEx.rolloutPercentage = false
    ∧ ((checkForUpdate cfgRollEx { httpCode := 200, remoteBody := "1.0.1", deviceHash := 456, upd := updOkEx }).outcome = CheckOutcome.deferred
       ∧ (checkForUpdate cfgRollEx { httpCode := 200, remoteBody := "1.0.1", deviceHash := 456, upd := updOkEx }).success = true
       ∧ (checkForUpdate cfgRollEx { httpCode := 200, remoteBody := "1.0.1", deviceHash := 456, upd := updOkEx }).invokedExecutor = false
       ∧ (∀ c, retryStep cfgRollEx.maxRetries c (checkForUpdate cfgRollEx { httpCode := 200, remoteBody := "1.0.1", deviceHash := 456, upd := updOkEx }).success = 0
           ∧ retryStep cfgRollEx.maxRetries c (checkForUpdate cfgRollEx { httpCode := 200, remoteBody := "1.0.1", deviceHash := 456, upd := updOkEx }).success ≠ c + 1)) :=
  ⟨by decide, by decide, by decide, by decide,
    check_deferred cfgRollEx { httpCode := 200, remoteBody := "1.0.1", deviceHash := 456, upd := updOkEx }
      (by decide) (by decide) (by decide) (by decide)⟩

/-- Counterexample to C5 as stated: `setRandomDelay(2, 1)` stores min = 2 and
max = 1, so the min ≤ max invariant does not hold after this configuration
operation (the source clamps only the rollout percentage). -/
theorem random_delay_invariant_counterexample :
    ¬ ((setRandomDelay initialConfig 2 1).minRandomDelay
        ≤ (setRandomDelay initialConfig 2 1).maxRandomDelay) := by
  decide

/-- C5 amended: `setStaggeredRollout` clamps the rollout percentage into
[0,100]; `setRandomDelay` stores its two 32-bit arguments unchanged with no
clamping, so min ≤ max holds after it exactly when the stored arguments
satisfy minMs ≤ maxMs. -/
theorem config_invariant_amended (cfg : Config) (enable : Bool) (p minMs maxMs : Nat) :
    (setStaggeredRollout cfg enable p).rolloutPercentage ≤ 100
    ∧ ((setRandomDelay cfg minMs maxMs).minRandomDelay
          ≤ (setRandomDelay cfg minMs maxMs).maxRandomDelay
        ↔ minMs % U32 ≤ maxMs % U32) := by
  constructor
  · show constrain (p % 256) 0 100 ≤ 100
    unfold constrain
    split
    · omega
    · split <;> omega
  · exact Iff.rfl

/-- Any run of `performUpdate` missing one of its five success conditions
returns false, calls `setError` exactly once with a non-empty message, and
does not restart. -/
theorem performUpdate_failure_spec (upd : UpdateInput)
    (hfail : ¬(upd.httpCode = 200 ∧ upd.contentLength > 0 ∧ upd.canBegin = true
               ∧ upd.endOk = true ∧ upd.isFinished = true)) :
    (performUpdate upd).success = false
    ∧ (performUpdate upd).setErrorCalls.length = 1
    ∧ (∀ m ∈ (performUpdate upd).setErrorCalls, m ≠ "")
    ∧ (performUpdate upd).restarted = false := by
  have hne1 : ("Download failed: HTTP " ++ toString upd.httpCode) ≠ "" :=
    append_ne_empty_left _ _ (by decide)
  have hne2 : ("Update failed: error " ++ toString upd.updateError) ≠ "" :=
    append_ne_empty_left _ _ (by decide)
  unfold performUpdate
  by_cases h1 : upd.httpCode = 200
  · by_cases h2 : upd.contentLength > 0
    · by_cases h3 : upd.canBegin = true
      · by_cases h4 : upd.endOk = true
        · by_cases h5 : upd.isFinished = true
          · exact absurd ⟨h1, h2, h3, h4, h5⟩ hfail
          · simp [h1, h2, h3, h4, h5]
        · simp [h1, h2, h3, h4, hne2]
      · simp [h1, h2, h3]
    · simp [h1, h2]
  · simp [h1, hne1]

/-- A `performUpdate` run succeeds exactly when the download status is 200,
the declared content length is positive, the flash writer accepts the size,
finalization succeeds, and the image is complete — so every one of the
enumerated failure conditions lands on a failure branch. -/
theorem performUpdate_success_iff (upd : UpdateInput) :
    (performUpdate upd).success = true
      ↔ (upd.httpCode = 200 ∧ upd.contentLength > 0 ∧ upd.canBegin = true
         ∧ upd.endOk = true ∧ upd.isFinished = true) := by
  unfold performUpdate
  split_ifs <;> simp_all

/-- C7 amended: a non-200 version check is a failure branch, the enumerated
executor conditions (non-200 download, non-positive content length,
insufficient flash space, finalize error, incomplete finish) characterize
exactly the executor's failure branches, and on every failure branch of the
whole update sequence — version check included — the run records the error
by calling `setError` exactly once with a non-empty message, returns Failed,
and does not restart; the subsequent retry bookkeeping moves the counter up
by exactly 1 only while that stays below `maxRetries`, and resets it to 0
otherwise. -/
theorem update_failure_branches (cfg : Config) (inp : CheckInput) :
    (inp.httpCode ≠ 200 → (checkForUpdate cfg inp).outcome = CheckOutcome.failed)
    ∧ ((performUpdate inp.upd).success = true
        ↔ (inp.upd.httpCode = 200 ∧ inp.upd.contentLength > 0 ∧ inp.upd.canBegin = true
           ∧ inp.upd.endOk = true ∧ inp.upd.isFinished = true))
    ∧ ((checkForUpdate cfg inp).outcome = CheckOutcome.failed →
        (checkForUpdate cfg inp).success = false
        ∧ (checkForUpdate cfg inp).setErrorCalls.length = 1
        ∧ (∀ m ∈ (checkForUpdate cfg inp).setErrorCalls, m ≠ "")
        ∧ (checkForUpdate cfg inp).restarted = false
        ∧ (∀ maxR c, c < 255 → retryStep maxR c (checkForUpdate cfg inp).success
            = if c + 1 < maxR then c + 1 else 0)) := by
  refine ⟨?_, performUpdate_success_iff inp.upd, ?_⟩
  · intro h
    unfold checkForUpdate
    simp [h]
  · intro hfail
    have hprops : (checkForUpdate cfg inp).success = false
        ∧ (checkForUpdate cfg inp).setErrorCalls.length = 1
        ∧ (∀ m ∈ (checkForUpdate cfg inp).setErrorCalls, m ≠ "")
        ∧ (checkForUpdate cfg inp).restarted = false := by
      by_cases h1 : inp.httpCode = 200
      · by_cases h2 : trimString inp.remoteBody = cfg.currentVersion
        · exfalso
          unfold checkForUpdate at hfail
          simp [h1, h2] at hfail
        · by_cases h3 : (cfg.staggeredRollout
              && !shouldUpdateNow inp.deviceHash cfg.rolloutPercentage) = true
          · exfalso
            unfold checkForUpdate at hfail
            simp [h1, h2, h3] at hfail
          · have hres : checkForUpdate cfg inp
                = { success := (performUpdate inp.upd).success
                  , outcome := if (performUpdate inp.upd).success then CheckOutcome.updated
                               else CheckOutcome.failed
                  , invokedExecutor := true
                  , setErrorCalls := (performUpdate inp.upd).setErrorCalls
                  , restarted := (performUpdate inp.upd).restarted } := by
              unfold checkForUpdate
              simp [h1, h2, h3]
            rw [hres] at hfail ⊢
            cases hr : (performUpdate inp.upd).success with
            | true => simp [hr] at hfail
            | false =>
              have hnc : ¬(inp.upd.httpCode = 200 ∧ inp.upd.contentLength > 0
                  ∧ inp.upd.canBegin = true ∧ inp.upd.endOk = true
                  ∧ inp.upd.isFinished = true) := by
                intro hc
                have hs := (performUpdate_success_iff inp.upd).mpr hc
                rw [hs] at hr
                simp at hr
              obtain ⟨_, hlen, hmem, hrst⟩ := performUpdate_failure_spec inp.upd hnc
              exact ⟨rfl, hlen, hmem, hrst⟩
      · have hres : checkForUpdate cfg inp
            = { success := false, outcome := CheckOutcome.failed, invokedExecutor := false
              , setErrorCalls := ["Version check failed"], restarted := false } := by
          unfold checkForUpdate
          simp [h1]
        rw [hres]
        refine ⟨rfl, rfl, ?_, rfl⟩
        intro m hm
        simp at hm
        rw [hm]
        decide
    refine ⟨hprops.1, hprops.2.1, hprops.2.2.1, hprops.2.2.2, ?_⟩
    intro maxR c hc
    rw [hprops.1]
    exact retryStep_false_eq maxR c hc

/-- Check input whose version GET itself returns HTTP 500 (the executor
environment is the all-success one, showing the failure comes from the
version check alone). -/
def inpVcFailEx : CheckInput :=
  { httpCode := 500, remoteBody := "", deviceHash := 0, upd := updOkEx }

/-- Witness for C7 amended, exercised on the version-check failure branch:
the version GET returns HTTP 500. -/
theorem update_failure_branches_witness :
    inpVcFailEx.httpCode ≠ 200
    ∧ (checkForUpdate cfgEx inpVcFailEx).outcome = CheckOutcome.failed
    ∧ ((checkForUpdate cfgEx inpVcFailEx).success = false
       ∧ (checkForUpdate cfgEx inpVcFailEx).setErrorCalls.length = 1
       ∧ (∀ m ∈ (checkForUpdate cfgEx inpVcFailEx).setErrorCalls, m ≠ "")
       ∧ (checkForUpdate cfgEx inpVcFailEx).restarted = false
       ∧ (∀ maxR c, c < 255 → retryStep maxR c (checkForUpdate cfgEx inpVcFailEx).success
           = if c + 1 < maxR then c + 1 else 0)) :=
  ⟨by decide,
   (update_failure_branches cfgEx inpVcFailEx).1 (by decide),
   (update_failure_branches cfgEx inpVcFailEx).2.2
     ((update_failure_branches cfgEx inpVcFailEx).1 (by decide))⟩

/-- Agent state with two consecutive failures recorded and a forced check
pending. -/
def stRetry2Ex : AgentState :=
  { initialState with retryCount := 2, forceCheckFlag := true }

/-- Loop-iteration input: WiFi up, new remote version, firmware download
fails with HTTP 500. -/
def inpFailEx : StepInput :=
  { wifiConnected := true, now := 1000000
  , check := { httpCode := 200, remoteBody := "1.0.1", deviceHash := 0, upd := updFailEx } }

/-- Counterexample to C7 as stated: with the retry counter at 2 and
`maxRetries = 3`, a failed update (download HTTP 500, error recorded once)
leaves the counter at 0 after the loop iteration, not at 2 + 1 = 3 — the
increment is folded into the ceiling reset, so the counter is not always
incremented by exactly 1. -/
theorem update_failure_retry_counterexample :
    (performUpdate updFailEx).success = false
    ∧ (performUpdate updFailEx).setErrorCalls.length = 1
    ∧ stRetry2Ex.retryCount = 2
    ∧ cfgEx.maxRetries = 3
    ∧ (otaLoopBody cfgEx stRetry2Ex inpFailEx).1.retryCount = 0
    ∧ (otaLoopBody cfgEx stRetry2Ex inpFailEx).1.retryCount ≠ stRetry2Ex.retryCount + 1 := by
  decide

/-- Counterexample to C8 as stated: with the agent not running, both URLs
set, and WiFi connected, `begin` still returns false when FreeRTOS task
creation fails, so those three conditions are not the only ways `begin` can
return false. -/
theorem begin_taskcreate_counterexample :
    initialState.isRunning = false
    ∧ cfgEx.firmwareURL.length ≠ 0
    ∧ cfgEx.versionURL.length ≠ 0
    ∧ ({ wifiConnected := true, taskCreateOk := false } : BeginInput).wifiConnected = true
    ∧ (begin cfgEx initialState { wifiConnected := true, taskCreateOk := false }).1 = false := by
  decide

/-- C8 amended: `begin` returns true exactly when the agent is not already
running, both URLs are non-empty, WiFi is connected, and task creation
succeeds; the running flag is set exactly on the successful return. -/
theorem begin_conditions (cfg : Config) (st : AgentState) (inp : BeginInput) :
    ((begin cfg st inp).1 = true
      ↔ (st.isRunning = false ∧ cfg.firmwareURL.length ≠ 0 ∧ cfg.versionURL.length ≠ 0
         ∧ inp.wifiConnected = true ∧ inp.taskCreateOk = true))
    ∧ (begin cfg st inp).2.isRunning = ((begin cfg st inp).1 || st.isRunning) := by
  unfold begin
  split_ifs with h1 h2 h3 h4 <;> simp_all [setErrorState] <;> tauto

/-- C9: `forceCheck` only sets the force flag (every other state field is
unchanged), and on the next loop iteration with WiFi up the check runs
unconditionally — regardless of `now`, `lastCheckTime` and the configured
interval — with the flag already cleared, so it is false again after the
iteration. -/
theorem force_check_semantics (cfg : Config) (st : AgentState) (inp : StepInput)
    (hwifi : inp.wifiConnected = true) :
    ((forceCheck st).isRunning = st.isRunning
     ∧ (forceCheck st).lastCheckTime = st.lastCheckTime
     ∧ (forceCheck st).retryCount = st.retryCount
     ∧ (forceCheck st).lastError = st.lastError
     ∧ (forceCheck st).forceCheckFlag = true)
    ∧ (otaLoopBody cfg (forceCheck st) inp).2 = some (checkForUpdate cfg inp.check)
    ∧ (otaLoopBody cfg (forceCheck st) inp).1.forceCheckFlag = false := by
  refine ⟨⟨rfl, rfl, rfl, rfl, rfl⟩, ?_, ?_⟩
  · unfold otaLoopBody
    simp [hwifi, forceCheck]
  · unfold otaLoopBody
    simp only [hwifi, Bool.not_true, Bool.false_eq_true, if_false, forceCheck, Bool.true_or,
      if_true]
    exact (foldl_setErrorState_fields _ _).2.2.2

/-- Witness for C9: a force check fires immediately after a check at the same
instant (elapsed time 0 < interval). -/
theorem force_check_semantics_witness :
    ({ wifiConnected := true, now := 0
     , check := { httpCode := 200, remoteBody := "1.0.0\n", deviceHash := 0, upd := updOkEx } } : StepInput).wifiConnected = true
    ∧ (((forceCheck initialState).isRunning = initialState.isRunning
        ∧ (forceCheck initialState).lastCheckTime = initialState.lastCheckTime
        ∧ (forceCheck initialState).retryCount = initialState.retryCount
        ∧ (forceCheck initialState).lastError = initialState.lastError
        ∧ (forceCheck initialState).forceCheckFlag = true)
       ∧ (otaLoopBody cfgEx (forceCheck initialState)
            { wifiConnected := true, now := 0
            , check := { httpCode := 200, remoteBody := "1.0.0\n", deviceHash := 0, upd := updOkEx } }).2
          = some (checkForUpdate cfgEx { httpCode := 200, remoteBody := "1.0.0\n", deviceHash := 0, upd := updOkEx })
       ∧ (otaLoopBody cfgEx (forceCheck initialState)
            { wifiConnected := true, now := 0
            , check := { httpCode := 200, remoteBody := "1.0.0\n", deviceHash := 0, upd := updOkEx } }).1.forceCheckFlag
          = false) :=
  ⟨rfl, force_check_semantics cfgEx initialState
    { wifiConnected := true, now := 0
    , check := { httpCode := 200, remoteBody := "1.0.0\n", deviceHash := 0, upd := updOkEx } } rfl⟩

/-- One string-accepting operation: the URL/version setters and the internal
error recorder. -/
inductive ConfigOp where
  | fwURL (s : String)
  | verURL (s : String)
  | curVersion (s : String)
  | errMsg (s : String)
deriving Repr

/-- Application of one string-accepting operation to the agent. -/
def applyOp (p : Config × AgentState) (op : ConfigOp) : Config × AgentState :=
  match op with
  | .fwURL s => (setFirmwareURL p.1 s, p.2)
  | .verURL s => (setVersionURL p.1 s, p.2)
  | .curVersion s => (setCurrentVersion p.1 s, p.2)
  | .errMsg s => (p.1, setErrorState p.2 s)

/-- Application of a sequence of string-accepting operations. -/
def applyOps (init : Config × AgentState) (ops : List ConfigOp) : Config × AgentState :=
  ops.foldl applyOp init

/-- The stored strings fit their buffers: 255 characters for the URLs, 31 for
the current version, 127 for the last error (one byte of each buffer holds
the terminating NUL). -/
def stringsBounded (p : Config × AgentState) : Prop :=
  p.1.firmwareURL.length ≤ 255 ∧ p.1.versionURL.length ≤ 255
  ∧ p.1.currentVersion.length ≤ 31 ∧ p.2.lastError.length ≤ 127

/-- Bound on the stored length of the strncpy-and-terminate idiom. -/
theorem strncpyBounded_length (cap : Nat) (s : String) :
    (strncpyBounded cap s).length ≤ cap - 1 := by
  show (s.toList.take (cap - 1)).length ≤ cap - 1
  simp [List.length_take]

/-- One string-accepting operation preserves the buffer bounds. -/
theorem stringsBounded_applyOp (p : Config × AgentState) (op : ConfigOp)
    (hp : stringsBounded p) : stringsBounded (applyOp p op) := by
  cases op with
  | fwURL s => exact ⟨by simpa using strncpyBounded_length 256 s, hp.2.1, hp.2.2.1, hp.2.2.2⟩
  | verURL s => exact ⟨hp.1, by simpa using strncpyBounded_length 256 s, hp.2.2.1, hp.2.2.2⟩
  | curVersion s => exact ⟨hp.1, hp.2.1, by simpa using strncpyBounded_length 32 s, hp.2.2.2⟩
  | errMsg s => exact ⟨hp.1, hp.2.1, hp.2.2.1, by simpa using strncpyBounded_length 128 s⟩

/-- Any sequence of string-accepting operations preserves the buffer
bounds. -/
theorem stringsBounded_applyOps (ops : List ConfigOp) (p : Config × AgentState)
    (hp : stringsBounded p) : stringsBounded (applyOps p ops) := by
  induction ops generalizing p with
  | nil => exact hp
  | cons op t ih => exact ih _ (stringsBounded_applyOp p op hp)

/-- C10: every string-accepting setter and the error recorder truncates its
input to the fixed buffer capacity (255 characters for the URLs, 31 for the
current version, 127 for the last error, the stored value being exactly the
truncating take of the input), the getters return the stored values, and the
bounds hold after any sequence of such operations starting from the
constructor state — the bounded Lean strings model the NUL-terminated buffer
contents. -/
theorem bounded_strings_after_ops (ops : List ConfigOp) (s : String)
    (cfg : Config) (st : AgentState) :
    stringsBounded (applyOps (initialConfig, initialState) ops)
    ∧ (setFirmwareURL cfg s).firmwareURL.toList = s.toList.take 255
    ∧ (setVersionURL cfg s).versionURL.toList = s.toList.take 255
    ∧ (setCurrentVersion cfg s).currentVersion.toList = s.toList.take 31
    ∧ (setErrorState st s).lastError.toList = s.toList.take 127
    ∧ getCurrentVersion (setCurrentVersion cfg s) = strncpyBounded 32 s
    ∧ getLastError (setErrorState st s) = strncpyBounded 128 s := by
  refine ⟨stringsBounded_applyOps ops _ ?_, rfl, rfl, rfl, rfl, rfl, rfl⟩
  exact ⟨by decide, by decide, by decide, by decide⟩

end ESP32_AutoOTA
